import Mathlib

namespace MapXpress

/-- Single-quote character, used inside the fixed header names. -/
def sq : String := String.singleton (Char.ofNat 39)

/-- Splits a list of characters at every occurrence of a one-character
separator, accumulating the current field in reverse; this mirrors the
JavaScript String.prototype.split used at App.tsx line 113. -/
def jsSplitAux (sep : Char) : List Char → List Char → List String
  | [], acc => [String.mk acc.reverse]
  | x :: xs, acc =>
    if x = sep then String.mk acc.reverse :: jsSplitAux sep xs []
    else jsSplitAux sep xs (x :: acc)

/-- JavaScript String.prototype.split with a one-character separator. -/
def jsSplit (s : String) (sep : Char) : List String :=
  jsSplitAux sep s.data []

/-- JavaScript String.prototype.trim: strip whitespace from both ends
(App.tsx line 108). -/
def jsTrim (s : String) : String :=
  String.mk (((s.data.dropWhile Char.isWhitespace).reverse.dropWhile
    Char.isWhitespace).reverse)

/-- JavaScript Array.prototype.join with a string separator
(App.tsx line 157). -/
def jsJoin (sep : String) : List String → String
  | [] => ""
  | [x] => x
  | x :: y :: xs => x ++ sep ++ jsJoin sep (y :: xs)

/-- The fixed seven header names (App.tsx lines 13-21). -/
def headers : List String :=
  ["Order Number", "Recipient" ++ sq ++ "s Name", "Phone Number",
   "Standby Phone", "State", "City", "Recipient Street"]

/-- A row of string cells. -/
abbrev Row := List String

/-- The cumulative dataset held in the allExtracted state. -/
abbrev Dataset := List Row

/-- App.tsx line 113: split the response text on newlines, then split each
line on commas. -/
def parseCSV (text : String) : Dataset :=
  (jsSplit text '\n').map (fun row => jsSplit row ',')

/-- The merge policy of the setAllExtracted updater (App.tsx lines
115-123): adopt the whole sequence when the dataset is empty, otherwise
append the incoming rows from index 1 onward. -/
def mergeRows (prev rows : Dataset) : Dataset :=
  if prev.length = 0 then rows else prev ++ rows.drop 1

/-- JavaScript array assignment arr[i] = v: overwrites the slot in
range, and extends the array to length i + 1 when i is at or beyond the
end, the intervening holes reading back as empty strings where they are
later joined or rendered. -/
def jsArraySet (l : List String) (i : Nat) (v : String) : List String :=
  if i < l.length then l.set i v
  else l ++ List.replicate (i - l.length) "" ++ [v]

/-- handleEditCell (App.tsx lines 140-147): copy the dataset, copy the
addressed row, and assign the addressed cell with JavaScript array
semantics, so a column index at or beyond the row's width extends the
row to colIdx + 1 cells. A row index beyond the dataset makes the
original spread undefined and throw before any mutation, leaving the
state unchanged; that is modelled as a no-op on the dataset. -/
def editCell (ds : Dataset) (rowIdx colIdx : Nat) (v : String) : Dataset :=
  ds.set rowIdx (jsArraySet (ds.getD rowIdx []) colIdx v)

/-- The outcome of one fetch attempt as seen by the retry loop: an ok
response carrying the extracted text when the candidates/content/parts
path is present (none when absent), a non-ok HTTP status, or a thrown
transport fault with its message. -/
inductive Outcome where
  | ok (text : Option String)
  | httpStatus (code : Nat)
  | fault (msg : String)

/-- How one transport run of the while loop (App.tsx lines 67-97) ends. -/
inductive TransportResult where
  | success (text : Option String)
  | retriesExhausted
  | requestFailed (status : Nat)
  | unreachable (msg : String)
deriving DecidableEq

/-- A transport run: its final result, the backoff delays waited in
order, and the number of fetch attempts issued. -/
structure TransportRun where
  result : TransportResult
  delays : List Nat
  attempts : Nat
deriving DecidableEq

/-- The message of the error thrown by each failing exit of the retry
loop (App.tsx lines 84, 91 and 96). -/
def TransportResult.errorMessage : TransportResult → Option String
  | .success _ => none
  | .retriesExhausted => some "API call failed after multiple retries."
  | .requestFailed s => some ("API call failed with status: " ++ toString s)
  | .unreachable m => some m

/-- The while loop of handleExtract (App.tsx lines 70-93) with the final
non-ok check at lines 95-97; fuel equals maxRetries minus retries, so the
fuel-zero case is the normal loop exit where the response is still not ok.
A non-429 status throws inside the try and is handled by the same catch
as a fetch fault: both retry with backoff while retries is below
maxRetries minus one, and otherwise propagate. -/
def retryGo (outcomes : Nat → Outcome) (maxRetries initialDelay : Nat) :
    Nat → Nat → List Nat → TransportRun
  | 0, retries, acc => ⟨.retriesExhausted, acc.reverse, retries⟩
  | fuel + 1, retries, acc =>
    match outcomes retries with
    | .ok t => ⟨.success t, acc.reverse, retries + 1⟩
    | .httpStatus code =>
      if code = 429 then
        retryGo outcomes maxRetries initialDelay fuel (retries + 1)
          (initialDelay * 2 ^ retries :: acc)
      else if retries < maxRetries - 1 then
        retryGo outcomes maxRetries initialDelay fuel (retries + 1)
          (initialDelay * 2 ^ retries :: acc)
      else ⟨.requestFailed code, acc.reverse, retries + 1⟩
    | .fault m =>
      if retries < maxRetries - 1 then
        retryGo outcomes maxRetries initialDelay fuel (retries + 1)
          (initialDelay * 2 ^ retries :: acc)
      else ⟨.unreachable m, acc.reverse, retries + 1⟩

/-- One full transport run for one image, starting at zero retries. -/
def retryLoop (outcomes : Nat → Outcome) (maxRetries initialDelay : Nat) :
    TransportRun :=
  retryGo outcomes maxRetries initialDelay maxRetries 0 []

/-- The user-visible state touched by handleExtract: the cumulative
dataset, the error message, and the loading flag. -/
structure AppState where
  dataset : Dataset
  error : String
  loading : Bool
deriving DecidableEq

/-- How a batch run ends: the user-visible state, the number of images
attempted, and whether the run hung. hung is true when a transport
failure was thrown inside the async onloadend handler: that throw
rejects a promise nobody observes, while the promise awaited at App.tsx
line 39 can only resolve through resolveReader at line 128, so the loop,
the catch at line 132 and the setLoading(false) at line 136 are never
reached again and the state stays as it was. -/
structure BatchResult where
  state : AppState
  attempted : Nat
  hung : Bool
deriving DecidableEq

/-- The per-image loop of handleExtract (App.tsx lines 35-131): each
image runs the transport; on success with usable content the trimmed
text is parsed and merged and resolveReader lets the loop continue; on
success without usable content the per-image error is recorded at line
125 and the loop continues likewise; a transport failure is thrown at
line 91 or 96 inside the async onloadend handler, whose rejected promise
is unobserved — the awaited promise never settles, so the run hangs with
the state untouched and the remaining images never attempted. -/
def runBatchGo : List (Nat → Outcome) → AppState → Nat → BatchResult
  | [], st, n => ⟨st, n, false⟩
  | env :: rest, st, n =>
    match (retryLoop env 5 1000).result with
    | .success (some raw) =>
      runBatchGo rest
        { st with dataset := mergeRows st.dataset (parseCSV (jsTrim raw)) }
        (n + 1)
    | .success none =>
      runBatchGo rest
        { st with error := "Could not extract data. Please try another image." }
        (n + 1)
    | .retriesExhausted => ⟨st, n + 1, true⟩
    | .requestFailed _ => ⟨st, n + 1, true⟩
    | .unreachable _ => ⟨st, n + 1, true⟩

/-- handleExtract (App.tsx lines 23-137): clear the error, reject an
empty image list, set loading, run the batch; the setLoading(false) at
line 136 runs only when the batch loop actually completes — a hung run
keeps the loading flag set and its state as it was when it hung. -/
def handleExtract (envs : List (Nat → Outcome)) (st : AppState) :
    BatchResult :=
  let st0 : AppState := { st with error := "" }
  if envs.length = 0 then
    ⟨{ st0 with error := "Please select or capture at least one image first." }, 0, false⟩
  else
    let r := runBatchGo envs { st0 with loading := true } 0
    if r.hung then r
    else ⟨{ r.state with loading := false }, r.attempted, false⟩

/-- handleDownloadCSV (App.tsx lines 150-168): reject an empty dataset,
otherwise join the fixed header line and one comma-joined line per
dataset row with newlines. -/
def handleDownloadCSV (ds : Dataset) : Except String String :=
  if ds.length = 0 then .error "No data to download."
  else .ok (jsJoin "\n" (jsJoin "," headers :: ds.map (fun row => jsJoin "," row)))

/-- An operation on the cumulative dataset: a merge of a parsed row
sequence or a single cell edit. -/
inductive Op where
  | merge (rows : Dataset)
  | edit (rowIdx colIdx : Nat) (v : String)

/-- Apply one operation to the dataset. -/
def applyOp (ds : Dataset) : Op → Dataset
  | .merge rows => mergeRows ds rows
  | .edit r c v => editCell ds r c v

/-- Apply a sequence of operations starting from the empty dataset. -/
def applyOps (ops : List Op) : Dataset :=
  ops.foldl applyOp []

/-- Number of rows of the dataset equal to the fixed header row. -/
def headerCount (ds : Dataset) : Nat :=
  ds.countP (fun row => row == headers)

/-- Every transport run makes at most retries + fuel attempts. -/
theorem retryGo_attempts_le (outcomes : Nat → Outcome) (m d : Nat) :
    ∀ (fuel retries : Nat) (acc : List Nat),
      (retryGo outcomes m d fuel retries acc).attempts ≤ retries + fuel := by
  intro fuel
  induction fuel with
  | zero =>
    intro retries acc
    simp [retryGo]
  | succ fuel ih =>
    intro retries acc
    simp only [retryGo]
    split
    · show retries + 1 ≤ retries + (fuel + 1)
      omega
    · split
      · exact Nat.le_trans (ih _ _) (by omega)
      · split
        · exact Nat.le_trans (ih _ _) (by omega)
        · show retries + 1 ≤ retries + (fuel + 1)
          omega
    · split
      · exact Nat.le_trans (ih _ _) (by omega)
      · show retries + 1 ≤ retries + (fuel + 1)
        omega

/-- Claim C1: merging into an empty dataset adopts the entire incoming
sequence; merging into a non-empty dataset appends the incoming rows from
index 1 onward, leaving the existing rows unchanged as a prefix; and the
two-image scenario with both responses succeeding, run through the full
pipeline starting from the empty dataset, yields the three-row dataset. -/
theorem merge_policy_and_two_image_scenario :
    (∀ prev rows : Dataset, prev.length = 0 → mergeRows prev rows = rows)
    ∧ (∀ prev rows : Dataset, prev.length ≠ 0 →
        mergeRows prev rows = prev ++ rows.drop 1)
    ∧ handleExtract
        [fun _ => Outcome.ok (some "H1,H2\nA,B"),
         fun _ => Outcome.ok (some "H1,H2\nC,D")] ⟨[], "", false⟩
      = ⟨⟨[["H1", "H2"], ["A", "B"], ["C", "D"]], "", false⟩, 2, false⟩ := by
  refine ⟨?_, ?_, by decide⟩
  · intro prev rows h
    simp [mergeRows, h]
  · intro prev rows h
    simp [mergeRows, h]

/-- Witness for merge_policy_and_two_image_scenario at concrete datasets. -/
theorem merge_policy_witness :
    mergeRows [] [["H1", "H2"], ["A", "B"]] = [["H1", "H2"], ["A", "B"]]
    ∧ mergeRows [["H1", "H2"], ["A", "B"]] [["H1", "H2"], ["C", "D"]]
      = [["H1", "H2"], ["A", "B"]] ++ [["H1", "H2"], ["C", "D"]].drop 1 :=
  ⟨merge_policy_and_two_image_scenario.1 _ _ rfl,
   merge_policy_and_two_image_scenario.2.1 _ _ (by decide)⟩

/-- Claim C2 as stated is false: with every attempt answering HTTP 500 (a
non-success status other than 429), the transport does not fail
immediately with no retry; it retries with backoff, making 5 attempts and
waiting 4 delays before failing with that status. -/
theorem non429_not_immediate_counterexample :
    ¬ ((retryLoop (fun _ => Outcome.httpStatus 500) 5 1000).attempts = 1
        ∧ (retryLoop (fun _ => Outcome.httpStatus 500) 5 1000).delays = [])
    ∧ retryLoop (fun _ => Outcome.httpStatus 500) 5 1000
      = ⟨TransportResult.requestFailed 500, [1000, 2000, 4000, 8000], 5⟩ := by
  decide

/-- Claim C2 amended: the throw for a non-429 non-success status happens
inside the try block and is handled by the same catch as a connection
fault, so it is retried with backoff while fewer than maxRetries - 1
retries have been used and propagates as RequestFailed(status) only on
the attempt with retries = maxRetries - 1: a persistent non-429 status
makes 5 attempts with 4 backoff delays, and a non-429 status on the first
attempt followed by an ok response is retried and succeeds. -/
theorem non429_retried_like_fault :
    (∀ (outcomes : Nat → Outcome) (s : Nat), s ≠ 429 →
        (∀ n, outcomes n = Outcome.httpStatus s) →
        retryLoop outcomes 5 1000
          = ⟨TransportResult.requestFailed s, [1000, 2000, 4000, 8000], 5⟩)
    ∧ (∀ (outcomes : Nat → Outcome) (s : Nat) (t : Option String), s ≠ 429 →
        outcomes 0 = Outcome.httpStatus s → outcomes 1 = Outcome.ok t →
        retryLoop outcomes 5 1000 = ⟨TransportResult.success t, [1000], 2⟩) := by
  constructor
  · intro outcomes s hs h
    have hfun : outcomes = fun _ => Outcome.httpStatus s := funext h
    subst hfun
    simp [retryLoop, retryGo, hs]
  · intro outcomes s t hs h0 h1
    simp [retryLoop, retryGo, h0, h1, hs]

/-- Witness for non429_retried_like_fault on status 503. -/
theorem non429_retried_like_fault_witness :
    retryLoop (fun _ => Outcome.httpStatus 503) 5 1000
      = ⟨TransportResult.requestFailed 503, [1000, 2000, 4000, 8000], 5⟩
    ∧ retryLoop (fun n => if n = 0 then Outcome.httpStatus 503 else Outcome.ok (some "X"))
        5 1000
      = ⟨TransportResult.success (some "X"), [1000], 2⟩ :=
  ⟨non429_retried_like_fault.1 _ 503 (by decide) (fun _ => rfl),
   non429_retried_like_fault.2 _ 503 (some "X") (by decide) rfl rfl⟩

/-- Claim C3: a request throttled on every attempt with maxRetries = 5
and initialDelay = 1000 waits exactly 1000, 2000, 4000, 8000 and 16000 ms
and ends with retries exhausted after exactly 5 attempts; moreover no
transport run whatsoever issues more than 5 attempts. -/
theorem throttle_backoff_schedule :
    (∀ outcomes : Nat → Outcome,
        (∀ n, outcomes n = Outcome.httpStatus 429) →
        retryLoop outcomes 5 1000
          = ⟨TransportResult.retriesExhausted, [1000, 2000, 4000, 8000, 16000], 5⟩)
    ∧ (∀ outcomes : Nat → Outcome, (retryLoop outcomes 5 1000).attempts ≤ 5) := by
  constructor
  · intro outcomes h
    have hfun : outcomes = fun _ => Outcome.httpStatus 429 := funext h
    subst hfun
    decide
  · intro outcomes
    simpa using retryGo_attempts_le outcomes 5 1000 5 0 []

/-- Witness for throttle_backoff_schedule on the all-throttled stream. -/
theorem throttle_backoff_schedule_witness :
    retryLoop (fun _ => Outcome.httpStatus 429) 5 1000
      = ⟨TransportResult.retriesExhausted, [1000, 2000, 4000, 8000, 16000], 5⟩
    ∧ (retryLoop (fun _ => Outcome.httpStatus 429) 5 1000).attempts ≤ 5 :=
  ⟨throttle_backoff_schedule.1 _ (fun _ => rfl), throttle_backoff_schedule.2 _⟩

/-- Claim C4 as stated is false: the fault path does not apply exactly
the same backoff-and-retry policy as throttling — the all-faulting run
waits only four delays (1000, 2000, 4000, 8000 ms) while the
all-throttled run waits five, because a fault on the attempt with
retries = maxRetries - 1 propagates immediately without a delay. -/
theorem fault_policy_differs_counterexample :
    (retryLoop (fun _ => Outcome.fault "Failed to fetch") 5 1000).delays
      = [1000, 2000, 4000, 8000]
    ∧ (retryLoop (fun _ => Outcome.httpStatus 429) 5 1000).delays
      = [1000, 2000, 4000, 8000, 16000]
    ∧ (retryLoop (fun _ => Outcome.fault "Failed to fetch") 5 1000).delays
      ≠ (retryLoop (fun _ => Outcome.httpStatus 429) 5 1000).delays := by
  decide

/-- Claim C4 amended: a fault is retried with the same doubling backoff
delays while fewer than maxRetries - 1 retries have been used; the
all-faulting run makes the same number of attempts (5) as the
all-throttled run but performs only 4 backoff delays, propagating the
last fault as Unreachable immediately on the fifth attempt; a fault on
the first attempt followed by an ok response is retried and succeeds. -/
theorem fault_retry_policy :
    (∀ (outcomes : Nat → Outcome) (m : String),
        (∀ n, outcomes n = Outcome.fault m) →
        retryLoop outcomes 5 1000
          = ⟨TransportResult.unreachable m, [1000, 2000, 4000, 8000], 5⟩)
    ∧ (∀ (outcomes : Nat → Outcome) (m : String) (t : Option String),
        outcomes 0 = Outcome.fault m → outcomes 1 = Outcome.ok t →
        retryLoop outcomes 5 1000 = ⟨TransportResult.success t, [1000], 2⟩)
    ∧ (retryLoop (fun _ => Outcome.fault "x") 5 1000).attempts
      = (retryLoop (fun _ => Outcome.httpStatus 429) 5 1000).attempts := by
  refine ⟨?_, ?_, by decide⟩
  · intro outcomes m h
    have hfun : outcomes = fun _ => Outcome.fault m := funext h
    subst hfun
    simp [retryLoop, retryGo]
  · intro outcomes m t h0 h1
    simp [retryLoop, retryGo, h0, h1]

/-- Witness for fault_retry_policy on a connection-failure message. -/
theorem fault_retry_policy_witness :
    retryLoop (fun _ => Outcome.fault "Failed to fetch") 5 1000
      = ⟨TransportResult.unreachable "Failed to fetch", [1000, 2000, 4000, 8000], 5⟩
    ∧ retryLoop (fun n => if n = 0 then Outcome.fault "Failed to fetch" else Outcome.ok none)
        5 1000
      = ⟨TransportResult.success none, [1000], 2⟩ :=
  ⟨fault_retry_policy.1 _ "Failed to fetch" (fun _ => rfl),
   fault_retry_policy.2.1 _ "Failed to fetch" none rfl rfl⟩

/-- Claim C5 as stated is false: neither the parser nor the merge nor
the edit validates anything, so merging the parsed two-line response
with one cell per line yields a data row of width 1 rather than 7; a
first response that repeats the header line yields two header rows; an
edit can turn a near-header row back into a second header row; and an
edit addressing column 7 of a width-7 row extends that row to 8 cells. -/
theorem dataset_invariant_counterexample :
    ((applyOps [Op.merge (parseCSV "H\nA")]).getD 1 []).length = 1
    ∧ headerCount (applyOps [Op.merge
        (parseCSV (jsJoin "," headers ++ "\n" ++ jsJoin "," headers))]) = 2
    ∧ headerCount (applyOps
        [Op.merge [headers, headers.set 0 "X"], Op.edit 1 0 "Order Number"]) = 2
    ∧ ((applyOps [Op.merge [headers, ["a", "b", "c", "d", "e", "f", "g"]],
        Op.edit 1 7 "X"]).getD 1 []).length = 8 := by
  decide

/-- mergeRows preserves the width-7 and single-header invariant when the
incoming rows are well formed. -/
theorem mergeRows_preserves_inv (ds rows : Dataset)
    (hlen : ∀ row ∈ ds, row.length = 7) (hcnt : headerCount ds ≤ 1)
    (hrl : ∀ row ∈ rows, row.length = 7)
    (hrc : headerCount rows ≤ 1) (hrd : headerCount (rows.drop 1) = 0) :
    (∀ row ∈ mergeRows ds rows, row.length = 7)
      ∧ headerCount (mergeRows ds rows) ≤ 1 := by
  unfold mergeRows
  by_cases h : ds.length = 0
  · rw [if_pos h]
    exact ⟨hrl, hrc⟩
  · rw [if_neg h]
    constructor
    · intro row hrow
      rcases List.mem_append.1 hrow with h1 | h1
      · exact hlen row h1
      · exact hrl row (List.mem_of_mem_drop h1)
    · unfold headerCount at *
      rw [List.countP_append]
      omega

/-- editCell preserves the width-7 and single-header invariant when the
column index is below the fixed width and the written value is not one
of the header names. -/
theorem editCell_preserves_inv (ds : Dataset) (r c : Nat) (v : String)
    (hv : v ∉ headers) (hc7 : c < 7)
    (hlen : ∀ row ∈ ds, row.length = 7) (hcnt : headerCount ds ≤ 1) :
    (∀ row ∈ editCell ds r c v, row.length = 7)
      ∧ headerCount (editCell ds r c v) ≤ 1 := by
  unfold editCell
  by_cases hr : r < ds.length
  case neg =>
    rw [List.set_eq_of_length_le (Nat.le_of_not_lt hr)]
    exact ⟨hlen, hcnt⟩
  case pos =>
    have hold : ds.getD r [] = ds[r] := by
      rw [List.getD_eq_getElem?_getD, List.getElem?_eq_getElem hr]
      rfl
    have holdlen : (ds[r]).length = 7 := hlen _ (List.getElem_mem hr)
    have hc : c < (ds.getD r []).length := by
      rw [hold, holdlen]
      exact hc7
    have hset : jsArraySet (ds.getD r []) c v = (ds.getD r []).set c v := by
      unfold jsArraySet
      rw [if_pos hc]
    rw [hset]
    have hnewlen : ((ds.getD r []).set c v).length = 7 := by
      rw [List.length_set, hold]
      exact holdlen
    have hkey : (ds.getD r []).set c v ≠ headers := by
      intro heq
      apply hv
      have h1 : ((ds.getD r []).set c v)[c]? = some v := List.getElem?_set_self hc
      rw [heq] at h1
      exact List.getElem?_mem h1
    constructor
    · intro row hrow
      rcases List.mem_or_eq_of_mem_set hrow with h1 | h1
      · exact hlen row h1
      · rw [h1]
        exact hnewlen
    · unfold headerCount at *
      simp only [List.countP_set _ _ _ _ hr]
      by_cases hb : ((ds.getD r []).set c v == headers) = true
      · exact absurd (beq_iff_eq.1 hb) hkey
      · rw [if_neg hb]
        omega

/-- Claim C5 amended: provided every merged row sequence consists of
rows of exactly 7 cells, contains at most one header row and none after
its index 0, and every edit addresses a column index below 7 and writes
a value that is not one of the seven header names, then after any
sequence of merge and editCell operations starting from the empty
dataset every row has exactly 7 cells and the dataset contains at most
one header row. -/
theorem dataset_invariant_amended (ops : List Op)
    (hmerge : ∀ rows, Op.merge rows ∈ ops →
      (∀ row ∈ rows, row.length = 7) ∧ headerCount rows ≤ 1
        ∧ headerCount (rows.drop 1) = 0)
    (hedit : ∀ r c v, Op.edit r c v ∈ ops → c < 7 ∧ v ∉ headers) :
    (∀ row ∈ applyOps ops, row.length = 7)
      ∧ headerCount (applyOps ops) ≤ 1 := by
  have main : ∀ (ops2 : List Op) (ds : Dataset),
      (∀ rows, Op.merge rows ∈ ops2 → (∀ row ∈ rows, row.length = 7)
        ∧ headerCount rows ≤ 1 ∧ headerCount (rows.drop 1) = 0) →
      (∀ r c v, Op.edit r c v ∈ ops2 → c < 7 ∧ v ∉ headers) →
      (∀ row ∈ ds, row.length = 7) → headerCount ds ≤ 1 →
      (∀ row ∈ ops2.foldl applyOp ds, row.length = 7)
        ∧ headerCount (ops2.foldl applyOp ds) ≤ 1 := by
    intro ops2
    induction ops2 with
    | nil =>
      intro ds _ _ h1 h2
      exact ⟨h1, h2⟩
    | cons op rest ih =>
      intro ds hm he h1 h2
      rw [List.foldl_cons]
      cases op with
      | merge rows =>
        have hcur := hm rows (List.mem_cons_self _ _)
        have step := mergeRows_preserves_inv ds rows h1 h2 hcur.1 hcur.2.1 hcur.2.2
        exact ih (mergeRows ds rows)
          (fun rows2 hmem => hm rows2 (List.mem_cons_of_mem _ hmem))
          (fun r c v hmem => he r c v (List.mem_cons_of_mem _ hmem))
          step.1 step.2
      | edit r c v =>
        have hcur := he r c v (List.mem_cons_self _ _)
        have step := editCell_preserves_inv ds r c v hcur.2 hcur.1 h1 h2
        exact ih (editCell ds r c v)
          (fun rows2 hmem => hm rows2 (List.mem_cons_of_mem _ hmem))
          (fun r2 c2 v2 hmem => he r2 c2 v2 (List.mem_cons_of_mem _ hmem))
          step.1 step.2
  exact main ops [] hmerge hedit (by simp) (by simp [headerCount])

/-- Witness for dataset_invariant_amended on a merge followed by an
in-range edit. -/
theorem dataset_invariant_amended_witness :
    (∀ row ∈ applyOps [Op.merge [headers, ["a", "b", "c", "d", "e", "f", "g"]],
        Op.edit 1 0 "X"], row.length = 7)
    ∧ headerCount (applyOps [Op.merge [headers, ["a", "b", "c", "d", "e", "f", "g"]],
        Op.edit 1 0 "X"]) ≤ 1 :=
  dataset_invariant_amended _
    (by
      intro rows hmem
      simp only [List.mem_cons, List.not_mem_nil, or_false] at hmem
      rcases hmem with h | h
      · injection h with h2
        subst h2
        decide
      · exact Op.noConfusion h)
    (by
      intro r c v hmem
      simp only [List.mem_cons, List.not_mem_nil, or_false] at hmem
      rcases hmem with h | h
      · exact Op.noConfusion h
      · injection h with h1 h2 h3
        subst h2
        subst h3
        decide)

/-- Claim C6 against the code as written: a transport failure for an
image does stop the batch — the remaining images are never attempted and
the state is left exactly as it was — but no terminal error message is
ever surfaced: the throw at App.tsx line 91 or 96 rejects the unobserved
async onloadend promise, the promise awaited at line 39 never settles,
and the run hangs with the error still empty and the loading flag still
set. In the two-image scenario where the first image is throttled on all
five attempts, the dataset stays empty, only one image is attempted, the
error is the empty string, loading is still true and the run hangs. -/
theorem batch_abort_hangs_without_error :
    (∀ (env : Nat → Outcome) (rest : List (Nat → Outcome)) (st : AppState)
        (n : Nat) (e : String),
        ((retryLoop env 5 1000).result).errorMessage = some e →
        runBatchGo (env :: rest) st n = ⟨st, n + 1, true⟩)
    ∧ handleExtract
        [fun _ => Outcome.httpStatus 429, fun _ => Outcome.ok (some "H1,H2\nC,D")]
        ⟨[], "", false⟩
      = ⟨⟨[], "", true⟩, 1, true⟩ := by
  constructor
  · intro env rest st n e he
    cases hres : (retryLoop env 5 1000).result with
    | success t =>
      rw [hres] at he
      simp [TransportResult.errorMessage] at he
    | retriesExhausted =>
      simp [runBatchGo, hres]
    | requestFailed s =>
      simp [runBatchGo, hres]
    | unreachable m =>
      simp [runBatchGo, hres]
  · decide

/-- Witness for batch_abort_hangs_without_error: the all-throttled
single-image batch hangs with the state untouched. -/
theorem batch_abort_hangs_witness :
    runBatchGo [fun _ => Outcome.httpStatus 429] ⟨[], "", false⟩ 0
      = ⟨⟨[], "", false⟩, 0 + 1, true⟩ :=
  batch_abort_hangs_without_error.1 _ [] ⟨[], "", false⟩ 0
    "API call failed after multiple retries." (by decide)

/-- Claim C7: when the transport succeeds but the response carries no
usable content, the per-image error message is recorded, the dataset is
not changed by that image, and the batch continues with the next image;
in the concrete scenario the first image yields no content and the
second is still attempted, extracted and merged. -/
theorem empty_extraction_continues :
    (∀ (env : Nat → Outcome) (rest : List (Nat → Outcome)) (st : AppState) (n : Nat),
        (retryLoop env 5 1000).result = TransportResult.success none →
        runBatchGo (env :: rest) st n
          = runBatchGo rest
              { st with error := "Could not extract data. Please try another image." }
              (n + 1))
    ∧ handleExtract [fun _ => Outcome.ok none, fun _ => Outcome.ok (some "H1,H2\nA,B")]
        ⟨[], "", false⟩
      = ⟨⟨[["H1", "H2"], ["A", "B"]],
          "Could not extract data. Please try another image.", false⟩, 2, false⟩ := by
  constructor
  · intro env rest st n h
    simp [runBatchGo, h]
  · decide

/-- Witness for empty_extraction_continues on a single no-content image. -/
theorem empty_extraction_witness :
    runBatchGo [fun _ => Outcome.ok none] ⟨[], "", false⟩ 0
      = runBatchGo []
          ⟨[], "Could not extract data. Please try another image.", false⟩ 1 :=
  empty_extraction_continues.1 _ [] ⟨[], "", false⟩ 0 rfl

/-- Joining a list with a nonempty tail splits off the head. -/
theorem jsJoin_cons (sep x : String) (l : List String) (h : l ≠ []) :
    jsJoin sep (x :: l) = x ++ sep ++ jsJoin sep l := by
  cases l with
  | nil => exact absurd rfl h
  | cons y ys => rfl

/-- Claim C8: exporting a non-empty dataset produces exactly the fixed
header line followed by one comma-joined line per dataset row, all
joined by newlines; exporting an empty dataset fails with the
validation error and produces no output. -/
theorem csv_export_shape :
    (∀ ds : Dataset, ds ≠ [] →
        handleDownloadCSV ds
          = Except.ok
              (("Order Number,Recipient" ++ sq
                  ++ "s Name,Phone Number,Standby Phone,State,City,Recipient Street")
                ++ "\n" ++ jsJoin "\n" (ds.map (fun row => jsJoin "," row))))
    ∧ handleDownloadCSV [] = Except.error "No data to download." := by
  constructor
  · intro ds h
    cases ds with
    | nil => exact absurd rfl h
    | cons row rows =>
      unfold handleDownloadCSV
      rw [if_neg (by simp)]
      rw [jsJoin_cons _ _ _ (by simp)]
      have hh : jsJoin "," headers
          = "Order Number,Recipient" ++ sq
            ++ "s Name,Phone Number,Standby Phone,State,City,Recipient Street" := by
        decide
      rw [hh]
  · rfl

/-- Witness for csv_export_shape on a one-row dataset. -/
theorem csv_export_shape_witness :
    handleDownloadCSV [["H1", "H2"]]
      = Except.ok
          (("Order Number,Recipient" ++ sq
              ++ "s Name,Phone Number,Standby Phone,State,City,Recipient Street")
            ++ "\n" ++ jsJoin "\n" ([["H1", "H2"]].map (fun row => jsJoin "," row))) :=
  csv_export_shape.1 [["H1", "H2"]] (by decide)

/-- Claim C9: for in-range row and column indices, editCell sets exactly
the addressed cell to the new value and leaves the number of rows, the
width of every row and every other cell unchanged. -/
theorem editCell_frame (ds : Dataset) (r c : Nat) (v : String)
    (hr : r < ds.length) (hc : c < (ds.getD r []).length) :
    (editCell ds r c v).length = ds.length
    ∧ (∀ i, ((editCell ds r c v).getD i []).length = (ds.getD i []).length)
    ∧ ((editCell ds r c v).getD r []).getD c "" = v
    ∧ (∀ i j, ¬(i = r ∧ j = c) →
        ((editCell ds r c v).getD i []).getD j ""
          = (ds.getD i []).getD j "") := by
  unfold editCell
  have hset : jsArraySet (ds.getD r []) c v = (ds.getD r []).set c v := by
    unfold jsArraySet
    rw [if_pos hc]
  rw [hset]
  have hgetr : (ds.set r ((ds.getD r []).set c v)).getD r [] = (ds.getD r []).set c v := by
    rw [List.getD_eq_getElem?_getD, List.getElem?_set_self (by simpa using hr)]
    rfl
  have hgeti : ∀ i, i ≠ r →
      (ds.set r ((ds.getD r []).set c v)).getD i [] = ds.getD i [] := by
    intro i hi
    rw [List.getD_eq_getElem?_getD, List.getElem?_set_ne (Ne.symm hi),
      ← List.getD_eq_getElem?_getD]
  refine ⟨List.length_set .., ?_, ?_, ?_⟩
  · intro i
    by_cases hi : i = r
    · subst hi
      rw [hgetr, List.length_set]
    · rw [hgeti i hi]
  · rw [hgetr, List.getD_eq_getElem?_getD, List.getElem?_set_self hc]
    rfl
  · intro i j hij
    by_cases hi : i = r
    · subst hi
      have hj : j ≠ c := fun hjc => hij ⟨rfl, hjc⟩
      rw [hgetr, List.getD_eq_getElem?_getD, List.getD_eq_getElem?_getD,
        List.getElem?_set_ne (Ne.symm hj), List.getD_eq_getElem?_getD]
    · rw [hgeti i hi]

/-- Witness for editCell_frame on a two-by-two dataset. -/
theorem editCell_frame_witness :
    (editCell [["a", "b"], ["c", "d"]] 1 0 "Z").length
      = ([["a", "b"], ["c", "d"]] : Dataset).length
    ∧ (∀ i, ((editCell [["a", "b"], ["c", "d"]] 1 0 "Z").getD i []).length
        = (([["a", "b"], ["c", "d"]] : Dataset).getD i []).length)
    ∧ ((editCell [["a", "b"], ["c", "d"]] 1 0 "Z").getD 1 []).getD 0 "" = "Z"
    ∧ (∀ i j, ¬(i = 1 ∧ j = 0) →
        ((editCell [["a", "b"], ["c", "d"]] 1 0 "Z").getD i []).getD j ""
          = (([["a", "b"], ["c", "d"]] : Dataset).getD i []).getD j "") :=
  editCell_frame [["a", "b"], ["c", "d"]] 1 0 "Z" (by decide) (by decide)

/-- Claim C10 as stated is false: after the second image's persistent
connection failure the first image's merged rows are indeed retained,
but the abort path does not replace the error message and does not clear
the loading flag — the catch at App.tsx line 132 and the
setLoading(false) at line 136 are never reached, so the error stays
empty, loading stays set and the run hangs. -/
theorem abort_mechanism_counterexample :
    handleExtract
        [fun _ => Outcome.ok (some "H1,H2\nA,B"), fun _ => Outcome.fault "Failed to fetch"]
        ⟨[], "", false⟩
      = ⟨⟨[["H1", "H2"], ["A", "B"]], "", true⟩, 2, true⟩
    ∧ (handleExtract
        [fun _ => Outcome.ok (some "H1,H2\nA,B"), fun _ => Outcome.fault "Failed to fetch"]
        ⟨[], "", false⟩).state.error ≠ "An error occurred: Failed to fetch"
    ∧ (handleExtract
        [fun _ => Outcome.ok (some "H1,H2\nA,B"), fun _ => Outcome.fault "Failed to fetch"]
        ⟨[], "", false⟩).state.loading = true := by
  decide

/-- Claim C10 amended: when a transport failure ends a batch after
earlier images have been merged, the cumulative dataset retains all rows
merged from those images unchanged — nothing is removed, reordered or
rolled back — but the abort changes nothing else either: the error
message and the loading flag are left exactly as they were and the run
never completes; in the concrete scenario the first image's rows survive
the second image's persistent connection failure while the run hangs. -/
theorem abort_preserves_merged_rows :
    (∀ (env : Nat → Outcome) (rest : List (Nat → Outcome)) (st : AppState)
        (n : Nat) (e : String),
        ((retryLoop env 5 1000).result).errorMessage = some e →
        ((runBatchGo (env :: rest) st n).state.dataset = st.dataset
          ∧ (runBatchGo (env :: rest) st n).state.error = st.error
          ∧ (runBatchGo (env :: rest) st n).state.loading = st.loading
          ∧ (runBatchGo (env :: rest) st n).hung = true))
    ∧ (handleExtract
        [fun _ => Outcome.ok (some "H1,H2\nA,B"), fun _ => Outcome.fault "Failed to fetch"]
        ⟨[], "", false⟩).state.dataset = [["H1", "H2"], ["A", "B"]] := by
  constructor
  · intro env rest st n e he
    cases hres : (retryLoop env 5 1000).result with
    | success t =>
      rw [hres] at he
      simp [TransportResult.errorMessage] at he
    | retriesExhausted =>
      refine ⟨?_, ?_, ?_, ?_⟩ <;> simp [runBatchGo, hres]
    | requestFailed s =>
      refine ⟨?_, ?_, ?_, ?_⟩ <;> simp [runBatchGo, hres]
    | unreachable m =>
      refine ⟨?_, ?_, ?_, ?_⟩ <;> simp [runBatchGo, hres]
  · decide

/-- Witness for abort_preserves_merged_rows: a failing image leaves the
already-merged rows, the error and the loading flag as they were, and
the run hangs. -/
theorem abort_preserves_witness :
    (runBatchGo [fun _ => Outcome.fault "Failed to fetch"]
        ⟨[["H1", "H2"], ["A", "B"]], "", true⟩ 1).state.dataset
      = (⟨[["H1", "H2"], ["A", "B"]], "", true⟩ : AppState).dataset
    ∧ (runBatchGo [fun _ => Outcome.fault "Failed to fetch"]
        ⟨[["H1", "H2"], ["A", "B"]], "", true⟩ 1).state.error
      = (⟨[["H1", "H2"], ["A", "B"]], "", true⟩ : AppState).error
    ∧ (runBatchGo [fun _ => Outcome.fault "Failed to fetch"]
        ⟨[["H1", "H2"], ["A", "B"]], "", true⟩ 1).state.loading
      = (⟨[["H1", "H2"], ["A", "B"]], "", true⟩ : AppState).loading
    ∧ (runBatchGo [fun _ => Outcome.fault "Failed to fetch"]
        ⟨[["H1", "H2"], ["A", "B"]], "", true⟩ 1).hung = true :=
  abort_preserves_merged_rows.1 _ [] ⟨[["H1", "H2"], ["A", "B"]], "", true⟩ 1
    "Failed to fetch" (by decide)

end MapXpress
